import Mathlib

/-!
Verification of the flexible statistical anomaly classifier from
`src/sensor-dashboard/src/lib/flexibleModelService.ts`.

The embedding models JavaScript double arithmetic with exact rational
arithmetic extended by the three non-finite IEEE values (`NaN`, `+Infinity`,
`-Infinity`).  Negative zero is not distinguished from zero; in this code the
only division that can meet a zero divisor has the non-negative configuration
threshold `warningThreshold` as its divisor, so the `+0` sign convention used
below is the one the source exercises.  `Math.sqrt` is modelled as an
explicit function parameter `sqrtFn : ℚ → ℚ` (its exact value never matters
to the properties proved here; it only feeds the `tempStd` feature).
-/

/-- JavaScript number as used by this service: an exact rational, or one of
the non-finite IEEE values. -/
inductive JsNum where
  | fin (q : ℚ)
  | nan
  | pinf
  | ninf
deriving DecidableEq

/-- IEEE addition restricted to exactly-represented values. -/
def JsNum.add : JsNum → JsNum → JsNum
  | .fin a, .fin b => .fin (a + b)
  | .nan, _ => .nan
  | _, .nan => .nan
  | .pinf, .ninf => .nan
  | .ninf, .pinf => .nan
  | .pinf, _ => .pinf
  | _, .pinf => .pinf
  | .ninf, _ => .ninf
  | _, .ninf => .ninf

/-- IEEE negation. -/
def JsNum.neg : JsNum → JsNum
  | .fin a => .fin (-a)
  | .nan => .nan
  | .pinf => .ninf
  | .ninf => .pinf

/-- IEEE subtraction, `a - b = a + (-b)`. -/
def JsNum.sub (a b : JsNum) : JsNum := a.add b.neg

/-- IEEE multiplication; `0 * Infinity = NaN`. -/
def JsNum.mul : JsNum → JsNum → JsNum
  | .fin a, .fin b => .fin (a * b)
  | .nan, _ => .nan
  | _, .nan => .nan
  | .pinf, .fin a => if a = 0 then .nan else if 0 < a then .pinf else .ninf
  | .fin a, .pinf => if a = 0 then .nan else if 0 < a then .pinf else .ninf
  | .ninf, .fin a => if a = 0 then .nan else if 0 < a then .ninf else .pinf
  | .fin a, .ninf => if a = 0 then .nan else if 0 < a then .ninf else .pinf
  | .pinf, .pinf => .pinf
  | .ninf, .ninf => .pinf
  | .pinf, .ninf => .ninf
  | .ninf, .pinf => .ninf

/-- IEEE division with a `+0` divisor convention (negative zero is not
modelled; every zero divisor reached by this service is the non-negative
threshold `warningThreshold`): `0/0 = NaN`, `a/0 = ±Infinity` by the sign
of `a`. -/
def JsNum.div : JsNum → JsNum → JsNum
  | .fin a, .fin b =>
      if b = 0 then (if a = 0 then .nan else if 0 < a then .pinf else .ninf)
      else .fin (a / b)
  | .nan, _ => .nan
  | _, .nan => .nan
  | .pinf, .pinf => .nan
  | .pinf, .ninf => .nan
  | .ninf, .pinf => .nan
  | .ninf, .ninf => .nan
  | .pinf, .fin b => if 0 ≤ b then .pinf else .ninf
  | .ninf, .fin b => if 0 ≤ b then .ninf else .pinf
  | .fin _, .pinf => .fin 0
  | .fin _, .ninf => .fin 0

instance : Add JsNum := ⟨JsNum.add⟩
instance : Neg JsNum := ⟨JsNum.neg⟩
instance : Sub JsNum := ⟨JsNum.sub⟩
instance : Mul JsNum := ⟨JsNum.mul⟩
instance : Div JsNum := ⟨JsNum.div⟩

/-- `Math.max`: propagates `NaN`, otherwise the larger argument. -/
def JsNum.jmax : JsNum → JsNum → JsNum
  | .nan, _ => .nan
  | _, .nan => .nan
  | .pinf, _ => .pinf
  | _, .pinf => .pinf
  | .ninf, b => b
  | a, .ninf => a
  | .fin a, .fin b => .fin (max a b)

/-- `Math.min`: propagates `NaN`, otherwise the smaller argument. -/
def JsNum.jmin : JsNum → JsNum → JsNum
  | .nan, _ => .nan
  | _, .nan => .nan
  | .ninf, _ => .ninf
  | _, .ninf => .ninf
  | .pinf, b => b
  | a, .pinf => a
  | .fin a, .fin b => .fin (min a b)

/-- `Math.round` on rationals: half-up, ties toward positive infinity. -/
def jsRound (q : ℚ) : ℤ := ⌊q + 1/2⌋

/-- `Math.round(q * 10) / 10`: one decimal place of display precision. -/
def round1Q (q : ℚ) : ℚ := (jsRound (q * 10) : ℚ) / 10

/-- `Math.round(q * 100) / 100`: two decimal places of display precision. -/
def round2Q (q : ℚ) : ℚ := (jsRound (q * 100) : ℚ) / 100

/-- `Math.round` lifted to `JsNum` at one decimal place; `Math.round` maps
`NaN` to `NaN` and preserves the infinities. -/
def JsNum.round1 : JsNum → JsNum
  | .fin q => .fin (round1Q q)
  | x => x

/-- True exactly on finite values. -/
def JsNum.isFin : JsNum → Bool
  | .fin _ => true
  | _ => false

/-- True exactly on finite values lying in the closed interval `[lo, hi]`. -/
def JsNum.finIn (lo hi : ℚ) : JsNum → Bool
  | .fin q => decide (lo ≤ q) && decide (q ≤ hi)
  | _ => false

/-- Classification label, the union type `'normal' | 'warning' | 'critical'`
of the source. -/
inductive Status where
  | normal
  | warning
  | critical
deriving DecidableEq

/-- Severity rank of a status: normal < warning < critical. -/
def severityRank : Status → ℕ
  | .normal => 0
  | .warning => 1
  | .critical => 2

/-- The `features` object computed by `extractFeatures` (source lines
89-135).  Every field the source produces is a finite JavaScript number, so
the fields are plain rationals. -/
structure FeatureVector where
  meanTemp : ℚ
  tempStd : ℚ
  tempRange : ℚ
  maxDeviation : ℚ
  activeSensors : ℕ
deriving DecidableEq

/-- The `FlexibleModelMetadata` configuration (source lines 34-40); the
`maxSensors` cap and `version` string play no part in the classification
logic and are omitted. -/
structure FlexibleModelMetadata where
  referenceTemperature : ℚ
  warningThreshold : ℚ
  criticalThreshold : ℚ
deriving DecidableEq

/-- The defaults installed by the service constructor (source lines 48-54). -/
def defaultMetadata : FlexibleModelMetadata :=
  { referenceTemperature := 25, warningThreshold := 3/2, criticalThreshold := 5/2 }

/-- The validity filter of `extractFeatures` (source line 98):
`!isNaN(temp) && isFinite(temp) && temp > 0 && temp < 60`.  `isFinite`
rejects `NaN` and the infinities, making the `!isNaN` conjunct redundant. -/
def isValidReading : JsNum → Bool
  | .fin q => decide (0 < q) && decide (q < 60)
  | _ => false

/-- The filtered list `validReadings` (source line 97), with the surviving
readings exposed as the rationals they are. -/
def validReadings (xs : List JsNum) : List ℚ :=
  xs.filterMap fun v =>
    match v with
    | .fin q => if 0 < q ∧ q < 60 then some q else none
    | _ => none

/-- `Math.min(...list)` over a spread of a list; the `[]` case is `-Infinity`
in JavaScript but is unreachable here (the source guards on
`validReadings.length === 0` first). -/
def spreadMin : List ℚ → ℚ
  | [] => 0
  | t :: r => r.foldl min t

/-- `Math.max(...list)` over a spread of a list; the `[]` case is unreachable
for the same reason as in `spreadMin`. -/
def spreadMax : List ℚ → ℚ
  | [] => 0
  | t :: r => r.foldl max t

/-- The degenerate feature vector built when no valid sensors remain
(source lines 103-109) and again in the `catch` handler of `predict`
(source lines 232-238). -/
def defaultFeatures (m : FlexibleModelMetadata) : FeatureVector :=
  { meanTemp := m.referenceTemperature, tempStd := 0, tempRange := 0,
    maxDeviation := 0, activeSensors := 0 }

/-- `extractFeatures` (source lines 89-135).  All arithmetic after the
validity filter is over finite values, so it is carried out in ℚ;
`Math.sqrt` is the parameter `sqrtFn`. -/
def extractFeatures (sqrtFn : ℚ → ℚ) (m : FlexibleModelMetadata)
    (xs : List JsNum) : FeatureVector :=
  let vs := validReadings xs
  if vs.length = 0 then defaultFeatures m
  else
    let meanTemp := vs.sum / (vs.length : ℚ)
    let variance := (vs.map fun t => (t - meanTemp) ^ 2).sum / (vs.length : ℚ)
    let tempStd := sqrtFn variance
    let tempRange := spreadMax vs - spreadMin vs
    let deviations := vs.map fun t => |t - m.referenceTemperature|
    let maxDeviation := spreadMax deviations
    { meanTemp := round1Q meanTemp,
      tempStd := round2Q tempStd,
      tempRange := round2Q tempRange,
      maxDeviation := round2Q maxDeviation,
      activeSensors := vs.length }

/-- The raw (un-rounded) maximum absolute deviation of the valid readings
from the reference temperature; `0` when no reading is valid. -/
def rawMaxDeviation (m : FlexibleModelMetadata) (xs : List JsNum) : ℚ :=
  spreadMax ((validReadings xs).map fun t => |t - m.referenceTemperature|)

/-- The primary threshold ladder of `classifyTemperature` (source lines
150-160): status band and base confidence from `maxDeviation` alone.  The
branch conditions compare finite values, so they live in ℚ; the confidence
arithmetic is IEEE arithmetic because `maxDeviation / warningThreshold` can
leave the finite fragment when `warningThreshold = 0`. -/
def primaryClassify (m : FlexibleModelMetadata) (md : ℚ) : Status × JsNum :=
  if md ≤ m.warningThreshold then
    (Status.normal,
      JsNum.jmax (.fin 60) (.fin 100 - .fin md / .fin m.warningThreshold * .fin 40))
  else if md ≤ m.criticalThreshold then
    (Status.warning,
      JsNum.jmax (.fin 50)
        (.fin 80 - (.fin md - .fin m.warningThreshold) /
          (.fin m.criticalThreshold - .fin m.warningThreshold) * .fin 30))
  else
    (Status.critical,
      JsNum.jmin (.fin 95)
        (.fin 70 + (.fin md - .fin m.criticalThreshold) * .fin 10))

/-- The multiplicative confidence adjustments of `classifyTemperature`
(source lines 162-180), applied in source order: temperature range, then
standard deviation, then active sensor count. -/
def adjustConfidence (f : FeatureVector) (c : JsNum) : JsNum :=
  let a1 := if 2 < f.tempRange then c * .fin (9/10) else c
  let a2 := if 1 < f.tempStd then a1 * .fin (19/20) else a1
  if f.activeSensors < 2 then a2 * .fin (4/5)
  else if 3 ≤ f.activeSensors then a2 * .fin (11/10) else a2

/-- The final bounds clamp and display rounding of `classifyTemperature`
(source lines 188-193): `Math.max(10, Math.min(100, c))`, then
`Math.round(c * 10) / 10`. -/
def clampRound (c : JsNum) : JsNum :=
  JsNum.round1 (JsNum.jmax (.fin 10) (JsNum.jmin (.fin 100) c))

/-- `classifyTemperature` (source lines 140-195): primary ladder,
multiplicative adjustments, unconditional hard override at
`maxDeviation > 5.0` (which replaces both the status and the adjusted
confidence, source lines 182-186), then clamp and rounding. -/
def classifyTemperature (m : FlexibleModelMetadata) (f : FeatureVector) :
    Status × JsNum :=
  let base := primaryClassify m f.maxDeviation
  let adjusted := adjustConfidence f base.2
  let final :=
    if 5 < f.maxDeviation then
      (Status.critical, JsNum.jmin (.fin 95) (.fin 80 + .fin f.maxDeviation * .fin 2))
    else (base.1, adjusted)
  (final.1, clampRound final.2)

/-- The status `classifyTemperature` assigns as a function of the (rounded)
`maxDeviation` feature alone: the hard override, else the threshold
ladder. -/
def statusOfMd (m : FlexibleModelMetadata) (md : ℚ) : Status :=
  if 5 < md then Status.critical
  else if md ≤ m.warningThreshold then Status.normal
  else if md ≤ m.criticalThreshold then Status.warning
  else Status.critical

/-- The `FlexiblePredictionResult` object (source lines 18-32).  The
`timestamp` string is generated from the wall clock by the adapter layer and
is outside the pure core; `rawPrediction` is optional in the source (absent
from the `catch` fallback) and `inputSensors` is `undefined` when the input
is not array-like, hence the `Option` types. -/
structure FlexiblePredictionResult where
  success : Bool
  prediction : Status
  confidence : JsNum
  rawPrediction : Option ℚ
  inputSensors : Option ℕ
  features : FeatureVector
deriving DecidableEq

/-- The one kind of runtime exception relevant to `predict`: a JavaScript
`TypeError` (no custom error class is declared anywhere in the service). -/
inductive JsError where
  | typeError
deriving DecidableEq

/-- The fallback result built by the `catch` handler of `predict` (source
lines 227-240): `success = false`, `prediction = 'normal'`,
`confidence = 0`, no `rawPrediction`, `inputSensors` read from
`sensorReadings.length`, and the degenerate default features. -/
def fallbackResult (m : FlexibleModelMetadata) (len : Option ℕ) :
    FlexiblePredictionResult :=
  { success := false, prediction := Status.normal, confidence := .fin 0,
    rawPrediction := none, inputSensors := len,
    features := defaultFeatures m }

/-- The `try` block of `predict` on an array input (source lines 205-223):
extraction, classification, and assembly of the success result. -/
def predictBody (sqrtFn : ℚ → ℚ) (m : FlexibleModelMetadata)
    (xs : List JsNum) : FlexiblePredictionResult :=
  let features := extractFeatures sqrtFn m xs
  let classification := classifyTemperature m features
  { success := true, prediction := classification.1,
    confidence := classification.2,
    rawPrediction := some features.meanTemp,
    inputSensors := some xs.length,
    features := features }

/-- The `try`/`catch` structure of `predict` (source lines 205-241): a
normally-completing body resolves with its result; a thrown exception is
absorbed and the fallback result is resolved instead. -/
def predictCore (body : Except JsError FlexiblePredictionResult)
    (m : FlexibleModelMetadata) (len : Option ℕ) : FlexiblePredictionResult :=
  match body with
  | .ok r => r
  | .error _ => fallbackResult m len

/-- `predict` on an array of numbers (source lines 200-242).  On such inputs
the body is total, so the `try` outcome is always `.ok`. -/
def predictArr (sqrtFn : ℚ → ℚ) (m : FlexibleModelMetadata)
    (xs : List JsNum) : FlexiblePredictionResult :=
  predictCore (.ok (predictBody sqrtFn m xs)) m (some xs.length)

/-- The input domain of `predict` under JavaScript dynamic typing: a number
array, `null`/`undefined`, a bare scalar, or some other non-array object. -/
inductive DynInput where
  | arr (xs : List JsNum)
  | nullish
  | scalar (q : ℚ)
  | obj
deriving DecidableEq

/-- Runtime behaviour of `predict` (source lines 200-242) on each dynamic
input shape, per JavaScript evaluation of the source:
an array runs the normal body;
`null`/`undefined` throws `TypeError` at `sensorReadings.filter` (line 97),
the `catch` handler then throws `TypeError` again at `sensorReadings.length`
(line 231), so the returned promise rejects;
a scalar or non-array object throws `TypeError` at `.filter` (line 97) but
its `.length` read in the `catch` handler yields `undefined` without
throwing, so the fallback result is resolved (with no sensor count).
No branch constructs or throws any custom invalid-input error. -/
def predictDyn (sqrtFn : ℚ → ℚ) (m : FlexibleModelMetadata) :
    DynInput → Except JsError FlexiblePredictionResult
  | .arr xs => .ok (predictArr sqrtFn m xs)
  | .nullish => .error .typeError
  | .scalar _ => .ok (fallbackResult m none)
  | .obj => .ok (fallbackResult m none)

/-- Whether a `predict` call resolves (rather than rejecting with a thrown
error). -/
def resolves : Except JsError FlexiblePredictionResult → Bool
  | .ok _ => true
  | .error _ => false

/-- Stand-in square root used only to instantiate `sqrtFn` in concrete
counterexamples and witnesses whose asserted fields do not depend on
`tempStd`. -/
def sqrtZero : ℚ → ℚ := fun _ => 0

/-- Arithmetic mean of a list of readings, as the claim states it. -/
def specMean (vs : List ℚ) : ℚ := vs.sum / (vs.length : ℚ)

/-- Population variance (dividing by N, not N-1), as the claim states it. -/
def specPopVariance (vs : List ℚ) : ℚ :=
  (vs.map fun t => (t - specMean vs) ^ 2).sum / (vs.length : ℚ)

/-- max(valid) - min(valid), as the claim states it. -/
def specRange (vs : List ℚ) : ℚ := vs.max?.getD 0 - vs.min?.getD 0

/-- Maximum absolute deviation from the reference, as the claim states it. -/
def specMaxDev (ref : ℚ) (vs : List ℚ) : ℚ :=
  ((vs.map fun t => |t - ref|).max?).getD 0

/-- Instance application of addition unfolds to `JsNum.add`. -/
theorem jsnum_add_def (a b : JsNum) : a + b = JsNum.add a b := rfl

/-- Instance application of subtraction unfolds to `JsNum.sub`. -/
theorem jsnum_sub_def (a b : JsNum) : a - b = JsNum.sub a b := rfl

/-- Instance application of multiplication unfolds to `JsNum.mul`. -/
theorem jsnum_mul_def (a b : JsNum) : a * b = JsNum.mul a b := rfl

/-- Instance application of division unfolds to `JsNum.div`. -/
theorem jsnum_div_def (a b : JsNum) : a / b = JsNum.div a b := rfl

/-- Addition of finite values is exact. -/
theorem fin_add (a b : ℚ) : JsNum.fin a + JsNum.fin b = JsNum.fin (a + b) := rfl

/-- Subtraction of finite values is exact. -/
theorem fin_sub (a b : ℚ) : JsNum.fin a - JsNum.fin b = JsNum.fin (a - b) := by
  rw [sub_eq_add_neg a b]; rfl

/-- Multiplication of finite values is exact. -/
theorem fin_mul (a b : ℚ) : JsNum.fin a * JsNum.fin b = JsNum.fin (a * b) := rfl

/-- Division of finite values with non-zero divisor is exact. -/
theorem fin_div (a b : ℚ) (hb : b ≠ 0) :
    JsNum.fin a / JsNum.fin b = JsNum.fin (a / b) := by
  rw [jsnum_div_def, JsNum.div]
  simp [hb]

/-- `0 / 0 = NaN`. -/
theorem fin_div_zero_zero : JsNum.fin 0 / JsNum.fin 0 = JsNum.nan := by
  rw [jsnum_div_def, JsNum.div]
  simp

/-- `a / 0 = -Infinity` for negative `a` (with a `+0` divisor). -/
theorem fin_div_zero_neg (a : ℚ) (ha : a < 0) :
    JsNum.fin a / JsNum.fin 0 = JsNum.ninf := by
  rw [jsnum_div_def, JsNum.div]
  simp [ha.ne, not_lt.mpr ha.le]

/-- `Math.max` of finite values. -/
theorem jmax_fin (a b : ℚ) : JsNum.jmax (.fin a) (.fin b) = .fin (max a b) := rfl

/-- `Math.min` of finite values. -/
theorem jmin_fin (a b : ℚ) : JsNum.jmin (.fin a) (.fin b) = .fin (min a b) := rfl

/-- `Math.max` of a finite value and `+Infinity`. -/
theorem jmax_fin_pinf (a : ℚ) : JsNum.jmax (.fin a) .pinf = .pinf := rfl

/-- Subtracting `-Infinity` from a finite value gives `+Infinity`. -/
theorem fin_sub_ninf (a : ℚ) : JsNum.fin a - JsNum.ninf = JsNum.pinf := rfl

/-- `-Infinity` times a positive finite value stays `-Infinity`. -/
theorem ninf_mul_posfin (a : ℚ) (ha : 0 < a) :
    JsNum.ninf * JsNum.fin a = JsNum.ninf := by
  rw [jsnum_mul_def, JsNum.mul]
  simp [ne_of_gt ha, ha]

/-- Multiplying a non-`NaN` value by a positive finite value cannot create
`NaN`. -/
theorem mul_posfin_ne_nan (c : JsNum) (a : ℚ) (h : c ≠ .nan) (ha : 0 < a) :
    c * JsNum.fin a ≠ .nan := by
  cases c with
  | fin q => rw [fin_mul]; simp
  | nan => exact absurd rfl h
  | pinf => rw [jsnum_mul_def, JsNum.mul]; simp [ne_of_gt ha, ha]
  | ninf => rw [jsnum_mul_def, JsNum.mul]; simp [ne_of_gt ha, ha]

/-- `Math.round` at one decimal keeps a value of `[10, 100]` in `[10, 100]`. -/
theorem round1Q_bounds {x : ℚ} (h1 : 10 ≤ x) (h2 : x ≤ 100) :
    10 ≤ round1Q x ∧ round1Q x ≤ 100 := by
  have hl : (100 : ℤ) ≤ ⌊x * 10 + 1/2⌋ := Int.le_floor.mpr (by push_cast; linarith)
  have hu : ⌊x * 10 + 1/2⌋ ≤ 1000 := by
    have hcmp : ⌊x * 10 + 1/2⌋ ≤ ⌊(2001/2 : ℚ)⌋ := Int.floor_le_floor (by linarith)
    have h1000 : (⌊(2001/2 : ℚ)⌋ : ℤ) = 1000 := by
      rw [Int.floor_eq_iff] <;> norm_num
    rw [h1000] at hcmp
    exact hcmp
  have hl' : (100 : ℚ) ≤ (⌊x * 10 + 1/2⌋ : ℚ) := by exact_mod_cast hl
  have hu' : ((⌊x * 10 + 1/2⌋ : ℤ) : ℚ) ≤ 1000 := by exact_mod_cast hu
  rw [round1Q, jsRound]
  constructor <;> [linarith; linarith]

/-- The clamp `max 10 (min 100 q)` lands in `[10, 100]`. -/
theorem clampQ_bounds (q : ℚ) : 10 ≤ max 10 (min 100 q) ∧ max 10 (min 100 q) ≤ 100 :=
  ⟨le_max_left _ _, max_le (by norm_num) (min_le_left _ _)⟩

/-- Clamp-and-round of a finite value, computed. -/
theorem clampRound_fin (q : ℚ) :
    clampRound (.fin q) = .fin (round1Q (max 10 (min 100 q))) := rfl

/-- Clamp-and-round of a finite value is finite and within `[10, 100]`. -/
theorem clampRound_fin_bounds (q : ℚ) :
    ∃ r : ℚ, clampRound (.fin q) = .fin r ∧ 10 ≤ r ∧ r ≤ 100 := by
  obtain ⟨h1, h2⟩ := clampQ_bounds q
  obtain ⟨b1, b2⟩ := round1Q_bounds h1 h2
  exact ⟨_, clampRound_fin q, b1, b2⟩

/-- Evaluation rule for `round1Q` from floor bounds. -/
theorem round1Q_eval (q : ℚ) (n : ℤ) (h1 : (n : ℚ) ≤ q * 10 + 1/2)
    (h2 : q * 10 + 1/2 < n + 1) : round1Q q = (n : ℚ) / 10 := by
  rw [round1Q, jsRound, show (⌊q * 10 + 1/2⌋ : ℤ) = n from Int.floor_eq_iff.mpr ⟨h1, by push_cast; linarith⟩]

/-- Evaluation rule for `round2Q` from floor bounds. -/
theorem round2Q_eval (q : ℚ) (n : ℤ) (h1 : (n : ℚ) ≤ q * 100 + 1/2)
    (h2 : q * 100 + 1/2 < n + 1) : round2Q q = (n : ℚ) / 100 := by
  rw [round2Q, jsRound, show (⌊q * 100 + 1/2⌋ : ℤ) = n from Int.floor_eq_iff.mpr ⟨h1, by push_cast; linarith⟩]

/-- Clamp-and-round sends `+Infinity` to the upper clamp bound `100`. -/
theorem clampRound_pinf : clampRound .pinf = .fin 100 := by
  have h : clampRound .pinf = .fin (round1Q (max 10 100)) := rfl
  rw [h, show max (10:ℚ) 100 = 100 from by norm_num,
    round1Q_eval 100 1000 (by norm_num) (by norm_num)]
  norm_num

/-- Clamp-and-round sends `-Infinity` to the lower clamp bound `10`. -/
theorem clampRound_ninf : clampRound .ninf = .fin 10 := by
  have h : clampRound .ninf = .fin (round1Q 10) := rfl
  rw [h, round1Q_eval 10 100 (by norm_num) (by norm_num)]
  norm_num

/-- Clamp-and-round of any non-`NaN` value is finite and within `[10, 100]`. -/
theorem clampRound_not_nan (c : JsNum) (h : c ≠ .nan) :
    ∃ r : ℚ, clampRound c = .fin r ∧ 10 ≤ r ∧ r ≤ 100 := by
  cases c with
  | fin q => exact clampRound_fin_bounds q
  | nan => exact absurd rfl h
  | pinf => exact ⟨100, clampRound_pinf, by norm_num, by norm_num⟩
  | ninf => exact ⟨10, clampRound_ninf, by norm_num, by norm_num⟩

/-- The confidence adjustments keep finite values finite. -/
theorem adjust_fin (f : FeatureVector) (b : ℚ) :
    ∃ q : ℚ, adjustConfidence f (.fin b) = .fin q := by
  simp only [adjustConfidence]
  split_ifs <;> exact ⟨_, rfl⟩

/-- The confidence adjustments (all multiplications by positive constants)
cannot create `NaN`. -/
theorem adjust_ne_nan (f : FeatureVector) (c : JsNum) (h : c ≠ .nan) :
    adjustConfidence f c ≠ .nan := by
  simp only [adjustConfidence]
  split_ifs <;>
    first
      | exact h
      | exact mul_posfin_ne_nan _ _ h (by norm_num)
      | exact mul_posfin_ne_nan _ _ (mul_posfin_ne_nan _ _ h (by norm_num)) (by norm_num)
      | exact mul_posfin_ne_nan _ _
          (mul_posfin_ne_nan _ _ (mul_posfin_ne_nan _ _ h (by norm_num)) (by norm_num))
          (by norm_num)

/-- The threshold ladder written with the branch confidences as explicit
rationals, valid whenever `0 < warning_threshold < critical_threshold`. -/
theorem primary_spec (m : FlexibleModelMetadata) (md : ℚ)
    (h0 : 0 < m.warningThreshold) (hlt : m.warningThreshold < m.criticalThreshold) :
    primaryClassify m md =
      if md ≤ m.warningThreshold then
        (Status.normal, .fin (max 60 (100 - md / m.warningThreshold * 40)))
      else if md ≤ m.criticalThreshold then
        (Status.warning,
          .fin (max 50 (80 - (md - m.warningThreshold) /
            (m.criticalThreshold - m.warningThreshold) * 30)))
      else
        (Status.critical, .fin (min 95 (70 + (md - m.criticalThreshold) * 10))) := by
  unfold primaryClassify
  split_ifs with hA hB
  · rw [fin_div md _ (ne_of_gt h0), fin_mul, fin_sub, jmax_fin]
  · rw [fin_sub md, fin_sub m.criticalThreshold,
      fin_div _ _ (sub_ne_zero.mpr (ne_of_gt hlt)), fin_mul, fin_sub, jmax_fin]
  · rw [fin_sub, fin_mul, fin_add, jmin_fin]

/-- With a valid positive-threshold configuration the ladder's confidence is
finite. -/
theorem primary_snd_fin (m : FlexibleModelMetadata) (md : ℚ)
    (h0 : 0 < m.warningThreshold) (hlt : m.warningThreshold < m.criticalThreshold) :
    ∃ b : ℚ, (primaryClassify m md).2 = .fin b := by
  rw [primary_spec m md h0 hlt]
  split_ifs <;> exact ⟨_, rfl⟩

/-- The status component of `classifyTemperature` depends only on the
`maxDeviation` feature, through `statusOfMd`. -/
theorem classify_fst (m : FlexibleModelMetadata) (f : FeatureVector) :
    (classifyTemperature m f).1 = statusOfMd m f.maxDeviation := by
  unfold classifyTemperature statusOfMd primaryClassify
  by_cases h5 : 5 < f.maxDeviation <;>
    by_cases hA : f.maxDeviation ≤ m.warningThreshold <;>
      by_cases hB : f.maxDeviation ≤ m.criticalThreshold <;>
        simp [h5, hA, hB]

/-- The confidence component of `classifyTemperature`: the hard override
replaces the adjusted ladder confidence, and the clamp-and-round applies in
both cases. -/
theorem classify_snd (m : FlexibleModelMetadata) (f : FeatureVector) :
    (classifyTemperature m f).2 =
      if 5 < f.maxDeviation then
        clampRound (JsNum.jmin (.fin 95) (.fin 80 + .fin f.maxDeviation * .fin 2))
      else clampRound (adjustConfidence f (primaryClassify m f.maxDeviation).2) := by
  unfold classifyTemperature
  by_cases h5 : 5 < f.maxDeviation <;> simp [h5]

/-- The ladder confidence is not `NaN` except at
`warning_threshold = 0 ∧ max_deviation = 0` (the unguarded `0/0`). -/
theorem primary_ne_nan (m : FlexibleModelMetadata) (md : ℚ)
    (h0 : 0 ≤ m.warningThreshold) (hlt : m.warningThreshold < m.criticalThreshold)
    (hz : m.warningThreshold = 0 → md ≠ 0) :
    (primaryClassify m md).2 ≠ .nan := by
  rcases lt_or_eq_of_le h0 with hpos | hzero
  · obtain ⟨b, hb⟩ := primary_snd_fin m md hpos hlt
    rw [hb]
    simp
  · have hwt : m.warningThreshold = 0 := hzero.symm
    have hmd : md ≠ 0 := hz hwt
    unfold primaryClassify
    rcases lt_trichotomy md 0 with hneg | h00 | hpos'
    · rw [if_pos (by rw [hwt]; exact hneg.le)]
      rw [hwt, fin_div_zero_neg md hneg, ninf_mul_posfin 40 (by norm_num),
        fin_sub_ninf, jmax_fin_pinf]
      simp
    · exact absurd h00 hmd
    · rw [if_neg (by rw [hwt]; exact not_le.mpr hpos')]
      split_ifs with hB
      · rw [fin_sub md, fin_sub m.criticalThreshold,
          fin_div _ _ (sub_ne_zero.mpr (ne_of_gt hlt)), fin_mul, fin_sub, jmax_fin]
        simp
      · rw [fin_sub, fin_mul, fin_add, jmin_fin]
        simp

/-- Master bound: under a valid configuration, and excluding the one `0/0`
case, the reported confidence is a finite rational in `[10, 100]`. -/
theorem classify_conf_bounds (m : FlexibleModelMetadata) (f : FeatureVector)
    (h0 : 0 ≤ m.warningThreshold) (hlt : m.warningThreshold < m.criticalThreshold)
    (hz : m.warningThreshold = 0 → f.maxDeviation ≠ 0) :
    ∃ q : ℚ, (classifyTemperature m f).2 = .fin q ∧ 10 ≤ q ∧ q ≤ 100 := by
  rw [classify_snd]
  by_cases h5 : 5 < f.maxDeviation
  · rw [if_pos h5, fin_mul, fin_add, jmin_fin]
    exact clampRound_fin_bounds _
  · rw [if_neg h5]
    exact clampRound_not_nan _
      (adjust_ne_nan f _ (primary_ne_nan m f.maxDeviation h0 hlt hz))

/-- `Math.max(...spread)` over a nonempty list agrees with `List.max?`. -/
theorem spreadMax_eq (vs : List ℚ) (h : vs ≠ []) : spreadMax vs = vs.max?.getD 0 := by
  cases vs with
  | nil => exact absurd rfl h
  | cons t r => rfl

/-- `Math.min(...spread)` over a nonempty list agrees with `List.min?`. -/
theorem spreadMin_eq (vs : List ℚ) (h : vs ≠ []) : spreadMin vs = vs.min?.getD 0 := by
  cases vs with
  | nil => exact absurd rfl h
  | cons t r => rfl

/-- The filtered list is characterised reading-by-reading by the validity
predicate `is_finite(x) AND x > 0 AND x < 60`. -/
theorem validReadings_filter (xs : List JsNum) :
    validReadings xs = (xs.filter isValidReading).filterMap
      (fun v => match v with | .fin q => some q | _ => none) := by
  induction xs with
  | nil => rfl
  | cons x r ih =>
    cases x with
    | fin q =>
      by_cases hq : 0 < q ∧ q < 60
      · simp [validReadings, List.filterMap_cons, List.filter_cons, hq,
          isValidReading, hq.1, hq.2] at ih ⊢
        exact ih
      · have hb : isValidReading (.fin q) = false := by
          simp [isValidReading]
          intro h1
          rcases not_and_or.mp hq with h | h
          · exact absurd h1 h
          · exact not_lt.mp h
        simp [validReadings, List.filterMap_cons, List.filter_cons, hq, hb] at ih ⊢
        exact ih
    | nan =>
      simp [validReadings, List.filterMap_cons, List.filter_cons, isValidReading] at ih ⊢
      exact ih
    | pinf =>
      simp [validReadings, List.filterMap_cons, List.filter_cons, isValidReading] at ih ⊢
      exact ih
    | ninf =>
      simp [validReadings, List.filterMap_cons, List.filter_cons, isValidReading] at ih ⊢
      exact ih

/-- If every reading fails the validity filter, nothing survives. -/
theorem validReadings_nil_of (xs : List JsNum)
    (h : ∀ x ∈ xs, isValidReading x = false) : validReadings xs = [] := by
  rw [validReadings, List.filterMap_eq_nil_iff]
  intro a ha
  cases a with
  | fin q =>
    have := h _ ha
    simp [isValidReading] at this
    have hq : ¬ (0 < q ∧ q < 60) := by
      intro hc
      exact absurd (this hc.1) (not_le.mpr hc.2)
    simp [hq]
  | nan => rfl
  | pinf => rfl
  | ninf => rfl

/-- `extractFeatures` on an input with no valid readings returns the
degenerate default feature vector. -/
theorem extract_empty (sqrtFn : ℚ → ℚ) (m : FlexibleModelMetadata)
    (xs : List JsNum) (h : validReadings xs = []) :
    extractFeatures sqrtFn m xs = defaultFeatures m := by
  simp only [extractFeatures, h]
  simp

/-- `extractFeatures` on an input with at least one valid reading: each field
is the claimed statistic, rounded to display precision. -/
theorem extract_nonempty (sqrtFn : ℚ → ℚ) (m : FlexibleModelMetadata)
    (xs : List JsNum) (h : validReadings xs ≠ []) :
    extractFeatures sqrtFn m xs =
      { meanTemp := round1Q (specMean (validReadings xs)),
        tempStd := round2Q (sqrtFn (specPopVariance (validReadings xs))),
        tempRange := round2Q (specRange (validReadings xs)),
        maxDeviation := round2Q (specMaxDev m.referenceTemperature (validReadings xs)),
        activeSensors := (validReadings xs).length } := by
  have hlen : ¬ (validReadings xs).length = 0 := by
    simpa [List.length_eq_zero] using h
  have hmapne : ((validReadings xs).map fun t => |t - m.referenceTemperature|) ≠ [] := by
    simpa using h
  simp only [extractFeatures, if_neg hlen]
  rw [spreadMax_eq _ h, spreadMin_eq _ h, spreadMax_eq _ hmapne]
  rfl

/-- The `maxDeviation` feature is the raw maximum deviation rounded to two
decimal places, in the degenerate case as well. -/
theorem extract_md (sqrtFn : ℚ → ℚ) (m : FlexibleModelMetadata) (xs : List JsNum) :
    (extractFeatures sqrtFn m xs).maxDeviation = round2Q (rawMaxDeviation m xs) := by
  by_cases h : validReadings xs = []
  · rw [extract_empty sqrtFn m xs h]
    rw [rawMaxDeviation, h]
    rw [show spreadMax (List.map (fun t => |t - m.referenceTemperature|) []) = 0 from rfl]
    rw [show round2Q 0 = 0 from by rw [round2Q_eval 0 0 (by norm_num) (by norm_num)]; norm_num]
    rfl
  · rw [extract_nonempty sqrtFn m xs h]
    rw [rawMaxDeviation, spreadMax_eq _ (by simpa using h)]
    rfl

/-- The confidence adjustments propagate `NaN`. -/
theorem adjust_nan (f : FeatureVector) : adjustConfidence f .nan = .nan := by
  simp only [adjustConfidence]
  split_ifs <;> rfl

/-- A configuration that the spec's validity rule `0 ≤ warning_threshold <
critical_threshold` admits, with a zero warning threshold. -/
def zeroWtMetadata : FlexibleModelMetadata :=
  { referenceTemperature := 25, warningThreshold := 0, criticalThreshold := 5/2 }

/-- With `warningThreshold = 0` and the degenerate feature vector
(`maxDeviation = 0`) the unguarded `0/0` poisons the whole confidence
computation: the classifier reports `NaN`. -/
theorem classify_zero_wt_nan :
    (classifyTemperature zeroWtMetadata (defaultFeatures zeroWtMetadata)).2 = JsNum.nan := by
  rw [classify_snd]
  rw [if_neg (by show ¬ (5:ℚ) < 0; norm_num)]
  have hp : (primaryClassify zeroWtMetadata
      (defaultFeatures zeroWtMetadata).maxDeviation).2 = JsNum.nan := by
    show (primaryClassify zeroWtMetadata 0).2 = JsNum.nan
    unfold primaryClassify
    simp only [zeroWtMetadata]
    rw [if_pos (le_refl (0:ℚ))]
    show JsNum.jmax (.fin 60) (.fin 100 - .fin 0 / .fin 0 * .fin 40) = JsNum.nan
    rw [fin_div_zero_zero]
    rfl
  rw [hp, adjust_nan]
  rfl

/-- C4 (amended): for every configuration with
`0 < warning_threshold < critical_threshold` and every `max_deviation`, the
primary status and base confidence are exactly the three claimed
band/formula pairs.  (The claim's original range `0 ≤ warning_threshold`
fails: at `warning_threshold = 0`, `max_deviation = 0` the base confidence
is `NaN`, not `max(60, 100 - (0/0)*40)`.) -/
theorem c4_primary_ladder_amended (m : FlexibleModelMetadata) (md : ℚ)
    (h0 : 0 < m.warningThreshold) (hlt : m.warningThreshold < m.criticalThreshold) :
    (md ≤ m.warningThreshold →
      primaryClassify m md =
        (Status.normal, .fin (max 60 (100 - md / m.warningThreshold * 40)))) ∧
    (m.warningThreshold < md → md ≤ m.criticalThreshold →
      primaryClassify m md =
        (Status.warning, .fin (max 50 (80 - (md - m.warningThreshold) /
          (m.criticalThreshold - m.warningThreshold) * 30)))) ∧
    (m.criticalThreshold < md →
      primaryClassify m md =
        (Status.critical, .fin (min 95 (70 + (md - m.criticalThreshold) * 10)))) := by
  rw [primary_spec m md h0 hlt]
  refine ⟨fun hA => ?_, fun hA hB => ?_, fun hC => ?_⟩
  · rw [if_pos hA]
  · rw [if_neg (not_le.mpr hA), if_pos hB]
  · rw [if_neg (not_le.mpr (hlt.trans hC)), if_neg (not_le.mpr hC)]

/-- C4 witness: the normal band at `max_deviation = 1` under the default
configuration. -/
theorem c4_primary_ladder_witness :
    primaryClassify defaultMetadata 1 =
      (Status.normal, .fin (max 60 (100 - 1 / defaultMetadata.warningThreshold * 40))) :=
  (c4_primary_ladder_amended defaultMetadata 1 (by norm_num [defaultMetadata])
    (by norm_num [defaultMetadata])).1 (by norm_num [defaultMetadata])

/-- C4 counterexample: the claim admits `warning_threshold = 0`
(`0 ≤ warning_threshold < critical_threshold`), but there the code computes
`0/0 = NaN` for the normal-band base confidence, which is not the claimed
formula value (`max(60, 100 - (0/0)*40)`, a rational, under any reading of
`0/0` as a real quantity). -/
theorem c4_primary_ladder_counterexample :
    (primaryClassify zeroWtMetadata 0).2 = JsNum.nan ∧
    JsNum.nan ≠ JsNum.fin (max 60 (100 - (0:ℚ) / 0 * 40)) ∧
    (0:ℚ) ≤ zeroWtMetadata.warningThreshold ∧
    zeroWtMetadata.warningThreshold < zeroWtMetadata.criticalThreshold := by
  refine ⟨?_, by simp, by norm_num [zeroWtMetadata], by norm_num [zeroWtMetadata]⟩
  unfold primaryClassify
  simp only [zeroWtMetadata]
  rw [if_pos (le_refl (0:ℚ))]
  show JsNum.jmax (.fin 60) (.fin 100 - .fin 0 / .fin 0 * .fin 40) = JsNum.nan
  rw [fin_div_zero_zero]
  rfl

/-- C7 (amended): classification is a total function and, for valid
configurations (`0 ≤ warning_threshold < critical_threshold`), its reported
confidence is a finite number except in exactly the case
`warning_threshold = 0 ∧ max_deviation = 0`, where the unguarded division
`0/0` makes it `NaN`.  The guard described by the spec (ratio treated as `0`
when `max_deviation = 0`, else saturated at `1`) does not exist in the
code. -/
theorem c7_division_guard_amended (m : FlexibleModelMetadata) (f : FeatureVector)
    (h0 : 0 ≤ m.warningThreshold) (hlt : m.warningThreshold < m.criticalThreshold)
    (hz : ¬ (m.warningThreshold = 0 ∧ f.maxDeviation = 0)) :
    (classifyTemperature m f).2.isFin = true := by
  obtain ⟨q, hq, -, -⟩ :=
    classify_conf_bounds m f h0 hlt (fun hw hmd => hz ⟨hw, hmd⟩)
  rw [hq]
  rfl

/-- C7 witness: `warning_threshold = 0` with a non-zero deviation yields a
finite confidence. -/
theorem c7_division_guard_witness :
    (classifyTemperature zeroWtMetadata
      { meanTemp := 25, tempStd := 0, tempRange := 0, maxDeviation := 1,
        activeSensors := 1 }).2.isFin = true :=
  c7_division_guard_amended zeroWtMetadata
    { meanTemp := 25, tempStd := 0, tempRange := 0, maxDeviation := 1, activeSensors := 1 }
    (by norm_num [zeroWtMetadata]) (by norm_num [zeroWtMetadata])
    (by intro hc; exact absurd hc.2 (by show (1:ℚ) ≠ 0; norm_num))

/-- C7 counterexample: at `warning_threshold = 0` and `max_deviation = 0`
(a configuration the claim covers), the classifier's confidence is `NaN`,
so it is not finite — the claimed divide-by-zero guard is absent. -/
theorem c7_division_guard_counterexample :
    (classifyTemperature zeroWtMetadata (defaultFeatures zeroWtMetadata)).2 = JsNum.nan ∧
    JsNum.nan.isFin = false ∧
    zeroWtMetadata.warningThreshold = 0 ∧
    (defaultFeatures zeroWtMetadata).maxDeviation = 0 ∧
    (0:ℚ) ≤ zeroWtMetadata.warningThreshold ∧
    zeroWtMetadata.warningThreshold < zeroWtMetadata.criticalThreshold :=
  ⟨classify_zero_wt_nan, rfl, rfl, rfl, by norm_num [zeroWtMetadata],
    by norm_num [zeroWtMetadata]⟩

/-- C2 (amended): for every configuration with
`0 < warning_threshold < critical_threshold` and every reading sequence of
any length (with arbitrary finite or non-finite entries), the confidence
reported by `predict` is a finite rational in `[10, 100]`.  (The claim's
original configuration range `0 ≤ warning_threshold` fails: with
`warning_threshold = 0` the confidence can be `NaN`.) -/
theorem c2_confidence_bounds_amended (sqrtFn : ℚ → ℚ) (m : FlexibleModelMetadata)
    (xs : List JsNum) (h0 : 0 < m.warningThreshold)
    (hlt : m.warningThreshold < m.criticalThreshold) :
    JsNum.finIn 10 100 (predictArr sqrtFn m xs).confidence = true := by
  obtain ⟨q, hq, h1, h2⟩ :=
    classify_conf_bounds m (extractFeatures sqrtFn m xs) h0.le hlt
      (fun hw => absurd hw (ne_of_gt h0))
  show JsNum.finIn 10 100 (classifyTemperature m (extractFeatures sqrtFn m xs)).2 = true
  rw [hq]
  simp [JsNum.finIn, h1, h2]

/-- C2 witness: the default configuration on a small concrete input. -/
theorem c2_confidence_bounds_witness :
    JsNum.finIn 10 100 (predictArr sqrtZero defaultMetadata [.fin 25]).confidence = true :=
  c2_confidence_bounds_amended sqrtZero defaultMetadata [.fin 25]
    (by norm_num [defaultMetadata]) (by norm_num [defaultMetadata])

/-- C2 counterexample: the claim quantifies over all valid configurations
(`0 ≤ warning_threshold < critical_threshold`); at `warning_threshold = 0`
the empty reading sequence produces confidence `NaN`, which lies in no
interval. -/
theorem c2_confidence_bounds_counterexample :
    (predictArr sqrtZero zeroWtMetadata []).confidence = JsNum.nan ∧
    JsNum.finIn 10 100 JsNum.nan = false ∧
    (0:ℚ) ≤ zeroWtMetadata.warningThreshold ∧
    zeroWtMetadata.warningThreshold < zeroWtMetadata.criticalThreshold := by
  refine ⟨?_, rfl, by norm_num [zeroWtMetadata], by norm_num [zeroWtMetadata]⟩
  show (classifyTemperature zeroWtMetadata
    (extractFeatures sqrtZero zeroWtMetadata [])).2 = JsNum.nan
  rw [extract_empty sqrtZero zeroWtMetadata [] rfl]
  exact classify_zero_wt_nan

/-- C1 (amended): whenever `max_deviation > 5.0` (and the configuration is
valid), the classifier returns status `critical` regardless of the ladder,
and the reported confidence is `min(95, 80 + max_deviation * 2)` — replacing
the step-2 adjusted confidence — clamped to `[10, 100]` and then rounded to
one decimal place.  (The claim as stated omits the final rounding.) -/
theorem c1_hard_override_amended (m : FlexibleModelMetadata) (f : FeatureVector)
    (h0 : 0 ≤ m.warningThreshold) (hlt : m.warningThreshold < m.criticalThreshold)
    (h5 : 5 < f.maxDeviation) :
    classifyTemperature m f =
      (Status.critical,
        .fin (round1Q (max 10 (min 100 (min 95 (80 + f.maxDeviation * 2)))))) := by
  rw [Prod.ext_iff]
  constructor
  · rw [classify_fst]
    unfold statusOfMd
    rw [if_pos h5]
  · rw [classify_snd, if_pos h5, fin_mul, fin_add, jmin_fin, clampRound_fin]

/-- C1 witness: `max_deviation = 6` under the default configuration. -/
theorem c1_hard_override_witness :
    classifyTemperature defaultMetadata
      { meanTemp := 25, tempStd := 0, tempRange := 0, maxDeviation := 6,
        activeSensors := 3 } =
      (Status.critical,
        .fin (round1Q (max 10 (min 100 (min 95 (80 + (6:ℚ) * 2)))))) :=
  c1_hard_override_amended defaultMetadata
    { meanTemp := 25, tempStd := 0, tempRange := 0, maxDeviation := 6, activeSensors := 3 }
    (by norm_num [defaultMetadata]) (by norm_num [defaultMetadata])
    (by show (5:ℚ) < 6; norm_num)

/-- C1 counterexample: at `max_deviation = 5.03` the code reports `90.1`
(the override value rounded to one decimal), while the claim's value
`min(95, 80 + 5.03*2)` clamped to `[10, 100]` is `90.06` — the claim omits
the rounding step. -/
theorem c1_hard_override_counterexample :
    (classifyTemperature defaultMetadata
      { meanTemp := 25, tempStd := 0, tempRange := 0, maxDeviation := 503/100,
        activeSensors := 3 }).2 = JsNum.fin (901/10) ∧
    (901/10 : ℚ) ≠ max 10 (min 100 (min 95 (80 + (503/100 : ℚ) * 2))) := by
  constructor
  · rw [classify_snd]
    rw [if_pos (by show (5:ℚ) < 503/100; norm_num)]
    rw [fin_mul, fin_add, jmin_fin, clampRound_fin]
    congr 1
    show round1Q (max 10 (min 100 (min 95 (80 + (503/100:ℚ) * 2)))) = 901/10
    rw [show (80 + (503/100:ℚ) * 2) = 9006/100 from by norm_num,
      min_eq_right (show (9006/100:ℚ) ≤ 95 by norm_num),
      min_eq_right (show (9006/100:ℚ) ≤ 100 by norm_num),
      max_eq_right (show (10:ℚ) ≤ 9006/100 by norm_num),
      round1Q_eval (9006/100) 901 (by norm_num) (by norm_num)]
    norm_num
  · norm_num

/-- A valid reading is kept by the filter, in order. -/
theorem validReadings_cons_valid (q : ℚ) (h1 : 0 < q) (h2 : q < 60) (r : List JsNum) :
    validReadings (.fin q :: r) = q :: validReadings r := by
  simp only [validReadings, List.filterMap_cons]
  rw [if_pos ⟨h1, h2⟩]

/-- C8: for every reading sequence in which no reading passes the validity
filter (including the empty sequence) and every valid configuration with
`warning_threshold ≥ 0`, `predict` returns status `normal` and a raw mean
temperature equal to the configured reference temperature. -/
theorem c8_degenerate_normal (sqrtFn : ℚ → ℚ) (m : FlexibleModelMetadata)
    (xs : List JsNum) (h0 : 0 ≤ m.warningThreshold)
    (hlt : m.warningThreshold < m.criticalThreshold)
    (hv : ∀ x ∈ xs, isValidReading x = false) :
    (predictArr sqrtFn m xs).prediction = Status.normal ∧
    (predictArr sqrtFn m xs).rawPrediction = some m.referenceTemperature := by
  have hne : m.warningThreshold < m.criticalThreshold := hlt
  have he : extractFeatures sqrtFn m xs = defaultFeatures m :=
    extract_empty sqrtFn m xs (validReadings_nil_of xs hv)
  constructor
  · show (classifyTemperature m (extractFeatures sqrtFn m xs)).1 = Status.normal
    rw [classify_fst, he]
    show statusOfMd m 0 = Status.normal
    unfold statusOfMd
    rw [if_neg (by norm_num), if_pos h0]
  · show some (extractFeatures sqrtFn m xs).meanTemp = some m.referenceTemperature
    rw [he]
    rfl

/-- C8 witness: a `NaN` reading and an out-of-range reading under the
default configuration. -/
theorem c8_degenerate_normal_witness :
    (predictArr sqrtZero defaultMetadata [JsNum.nan, .fin 200]).prediction = Status.normal ∧
    (predictArr sqrtZero defaultMetadata [JsNum.nan, .fin 200]).rawPrediction =
      some defaultMetadata.referenceTemperature :=
  c8_degenerate_normal sqrtZero defaultMetadata [JsNum.nan, .fin 200]
    (by norm_num [defaultMetadata]) (by norm_num [defaultMetadata])
    (by
      intro x hx
      rcases List.mem_cons.mp hx with rfl | hx2
      · rfl
      · rcases List.mem_cons.mp hx2 with rfl | hx3
        · show isValidReading (.fin 200) = false
          rw [show isValidReading (.fin 200) =
              (decide ((0:ℚ) < 200) && decide ((200:ℚ) < 60)) from rfl,
            show (decide ((200:ℚ) < 60)) = false from by norm_num]
          rfl
        · exact absurd hx3 (List.not_mem_nil x))

/-- The severity rank of the status is monotone in the (rounded)
`maxDeviation` input, with no configuration assumptions needed. -/
theorem statusOfMd_monotone (m : FlexibleModelMetadata) (d1 d2 : ℚ) (h : d1 ≤ d2) :
    severityRank (statusOfMd m d1) ≤ severityRank (statusOfMd m d2) := by
  unfold statusOfMd
  split_ifs <;> simp [severityRank] <;> linarith

/-- C9: for any two feature vectors agreeing on everything except
`max_deviation`, with `d1 ≤ d2`, and any valid configuration, the severity
rank (normal < warning < critical) of the classified status at `d1` is at
most the rank at `d2`. -/
theorem c9_monotonicity (m : FlexibleModelMetadata) (f1 f2 : FeatureVector)
    (h0 : 0 ≤ m.warningThreshold) (hlt : m.warningThreshold < m.criticalThreshold)
    (e1 : f1.meanTemp = f2.meanTemp) (e2 : f1.tempStd = f2.tempStd)
    (e3 : f1.tempRange = f2.tempRange) (e4 : f1.activeSensors = f2.activeSensors)
    (hd : f1.maxDeviation ≤ f2.maxDeviation) :
    severityRank (classifyTemperature m f1).1 ≤
      severityRank (classifyTemperature m f2).1 := by
  rw [classify_fst, classify_fst]
  exact statusOfMd_monotone m _ _ hd

/-- C9 witness: deviations 1 and 2 under the default configuration. -/
theorem c9_monotonicity_witness :
    severityRank (classifyTemperature defaultMetadata
      { meanTemp := 25, tempStd := 0, tempRange := 0, maxDeviation := 1,
        activeSensors := 2 }).1 ≤
    severityRank (classifyTemperature defaultMetadata
      { meanTemp := 25, tempStd := 0, tempRange := 0, maxDeviation := 2,
        activeSensors := 2 }).1 :=
  c9_monotonicity defaultMetadata _ _ (by norm_num [defaultMetadata])
    (by norm_num [defaultMetadata]) rfl rfl rfl rfl (by show (1:ℚ) ≤ 2; norm_num)

/-- C6 (amended): the status returned by `predict` equals the status obtained
by comparing the maximum deviation rounded to two decimal places — not the
raw full-precision deviation — against the thresholds and the 5.0 override
bound; the extractor rounds features before the classifier compares them. -/
theorem c6_full_precision_amended (sqrtFn : ℚ → ℚ) (m : FlexibleModelMetadata)
    (xs : List JsNum) :
    (predictArr sqrtFn m xs).prediction =
      statusOfMd m (round2Q (rawMaxDeviation m xs)) := by
  show (classifyTemperature m (extractFeatures sqrtFn m xs)).1 = _
  rw [classify_fst, extract_md]

/-- C6 counterexample: a single reading `26.504` under the default
configuration has raw deviation `1.504 > warning_threshold = 1.5`, so
full-precision comparison would give `warning`; the code rounds the
deviation to `1.50` first and returns `normal`. -/
theorem c6_full_precision_counterexample :
    (predictArr sqrtZero defaultMetadata [.fin (3313/125)]).prediction = Status.normal ∧
    statusOfMd defaultMetadata (rawMaxDeviation defaultMetadata [.fin (3313/125)]) =
      Status.warning ∧
    rawMaxDeviation defaultMetadata [.fin (3313/125)] = 188/125 ∧
    defaultMetadata.warningThreshold < 188/125 := by
  have hvr : validReadings [JsNum.fin (3313/125)] = [3313/125] := by
    rw [validReadings_cons_valid (3313/125) (by norm_num) (by norm_num) []]
    rfl
  have hraw : rawMaxDeviation defaultMetadata [.fin (3313/125)] = 188/125 := by
    rw [rawMaxDeviation, hvr]
    show spreadMax [|3313/125 - defaultMetadata.referenceTemperature|] = 188/125
    show |3313/125 - defaultMetadata.referenceTemperature| = 188/125
    rw [show (3313/125 : ℚ) - defaultMetadata.referenceTemperature = 188/125 from
      by norm_num [defaultMetadata]]
    norm_num
  refine ⟨?_, ?_, hraw, by norm_num [defaultMetadata]⟩
  · show (classifyTemperature defaultMetadata
      (extractFeatures sqrtZero defaultMetadata [.fin (3313/125)])).1 = Status.normal
    rw [classify_fst, extract_md, hraw,
      round2Q_eval (188/125) 150 (by norm_num) (by norm_num)]
    unfold statusOfMd
    rw [if_neg (by norm_num [defaultMetadata]), if_pos (by norm_num [defaultMetadata])]
  · rw [hraw]
    unfold statusOfMd
    rw [if_neg (by norm_num [defaultMetadata]),
      if_neg (by norm_num [defaultMetadata]), if_pos (by norm_num [defaultMetadata])]

/-- C3 (amended): `extractFeatures` keeps exactly the readings `x` with
`is_finite(x) AND x > 0 AND x < 60`; with no survivors it returns the
degenerate defaults (`mean = reference`, spreads and count `0`); otherwise
it returns the arithmetic mean, the square root of the population variance
(dividing by N, not N-1), the range `max - min`, the maximum absolute
deviation from the reference, and the count — each numeric statistic
rounded to display precision (mean to one decimal place, the others to
two), which the claim as stated omits. -/
theorem c3_extract_features_amended (sqrtFn : ℚ → ℚ) (m : FlexibleModelMetadata)
    (xs : List JsNum) :
    validReadings xs = (xs.filter isValidReading).filterMap
      (fun v => match v with | .fin q => some q | _ => none) ∧
    (validReadings xs = [] → extractFeatures sqrtFn m xs = defaultFeatures m) ∧
    (validReadings xs ≠ [] →
      extractFeatures sqrtFn m xs =
        { meanTemp := round1Q (specMean (validReadings xs)),
          tempStd := round2Q (sqrtFn (specPopVariance (validReadings xs))),
          tempRange := round2Q (specRange (validReadings xs)),
          maxDeviation := round2Q (specMaxDev m.referenceTemperature (validReadings xs)),
          activeSensors := (validReadings xs).length }) :=
  ⟨validReadings_filter xs, extract_empty sqrtFn m xs, extract_nonempty sqrtFn m xs⟩

/-- C3 witness: a lone `NaN` reading leaves no valid readings and produces
the default feature vector. -/
theorem c3_extract_features_witness :
    extractFeatures sqrtZero defaultMetadata [JsNum.nan] =
      defaultFeatures defaultMetadata :=
  (c3_extract_features_amended sqrtZero defaultMetadata [JsNum.nan]).2.1 rfl

/-- C3 counterexample: for the single reading `25.25` the claim says the
returned mean is the arithmetic mean `25.25`; the code returns it rounded to
one decimal place, `25.3`. -/
theorem c3_extract_features_counterexample :
    (extractFeatures sqrtZero defaultMetadata [.fin (101/4)]).meanTemp = 253/10 ∧
    specMean (validReadings [.fin (101/4)]) = 101/4 ∧
    (253/10 : ℚ) ≠ 101/4 := by
  have hvr : validReadings [JsNum.fin (101/4)] = [101/4] := by
    rw [validReadings_cons_valid (101/4) (by norm_num) (by norm_num) []]
    rfl
  have hmean : specMean [(101/4 : ℚ)] = 101/4 := by
    rw [specMean]
    norm_num
  refine ⟨?_, by rw [hvr]; exact hmean, by norm_num⟩
  rw [extract_nonempty sqrtZero defaultMetadata _ (by rw [hvr]; exact List.cons_ne_nil _ _)]
  show round1Q (specMean (validReadings [JsNum.fin (101/4)])) = 253/10
  rw [hvr, hmean, round1Q_eval (101/4) 253 (by norm_num) (by norm_num)]
  norm_num

/-- C5 (amended): `predict` performs no input-type validation and raises no
custom invalid-input error.  Under JavaScript dynamic typing it resolves
with a result for every input except `null`/`undefined` — in particular a
bare scalar or a non-array object is absorbed by the internal `catch` and
yields a `success = false` fallback result rather than an error — and only
`null`/`undefined` make it reject, with a generic `TypeError` thrown while
the `catch` handler reads `sensorReadings.length`. -/
theorem c5_input_type_amended (sqrtFn : ℚ → ℚ) (m : FlexibleModelMetadata)
    (inp : DynInput) :
    resolves (predictDyn sqrtFn m inp) = true ↔ inp ≠ DynInput.nullish := by
  cases inp <;> simp [predictDyn, resolves]

/-- C5 witness: an (empty) array input resolves. -/
theorem c5_input_type_witness :
    resolves (predictDyn sqrtZero defaultMetadata (.arr [])) = true :=
  (c5_input_type_amended sqrtZero defaultMetadata (.arr [])).mpr (by simp)

/-- C5 counterexample: a bare scalar — which the claim says must raise
`InvalidInputTypeError` — instead resolves with the `catch` fallback result;
and the one input shape that does fail (`null`/`undefined`) rejects with a
generic `TypeError`, not a dedicated invalid-input error (no such error
class exists in the source). -/
theorem c5_input_type_counterexample :
    predictDyn sqrtZero defaultMetadata (.scalar 25) =
      .ok (fallbackResult defaultMetadata none) ∧
    resolves (predictDyn sqrtZero defaultMetadata (.scalar 25)) = true ∧
    predictDyn sqrtZero defaultMetadata .nullish = .error JsError.typeError :=
  ⟨rfl, rfl, rfl⟩

/-- C10: if the `try` body of `predict` throws on an array input, the call
still resolves — with the `catch` fallback: `success = false`, prediction
`normal`, confidence `0` (below the documented `[10, 100]` floor),
`inputSensors` equal to the length of the supplied array, and the degenerate
default feature vector (mean = reference temperature, spreads and active
count `0`). -/
theorem c10_catch_fallback (m : FlexibleModelMetadata) (n : ℕ) (e : JsError) :
    predictCore (.error e) m (some n) = fallbackResult m (some n) ∧
    (fallbackResult m (some n)).success = false ∧
    (fallbackResult m (some n)).prediction = Status.normal ∧
    (fallbackResult m (some n)).confidence = JsNum.fin 0 ∧
    JsNum.finIn 10 100 (fallbackResult m (some n)).confidence = false ∧
    (fallbackResult m (some n)).inputSensors = some n ∧
    (fallbackResult m (some n)).features = defaultFeatures m ∧
    (defaultFeatures m).meanTemp = m.referenceTemperature := by
  refine ⟨rfl, rfl, rfl, rfl, ?_, rfl, rfl, rfl⟩
  show JsNum.finIn 10 100 (.fin 0) = false
  rw [show JsNum.finIn 10 100 (.fin 0) =
      (decide ((10:ℚ) ≤ 0) && decide ((0:ℚ) ≤ 100)) from rfl,
    show (decide ((10:ℚ) ≤ 0)) = false from by norm_num]
  rfl
